import Mathlib

/-!
Shallow embedding of `src/OLD/Pumphouse/Pumphouse.ino` (an Arduino sketch that
serves temperature readings over a tiny HTTP-like protocol on an RF24 mesh).

Byte buffers are modelled as `List Char`; the C string-library functions the
sketch uses (`strstr`, `strsep`, `strcmp`) are embedded over such lists.
Floating point temperatures are modelled as rationals; `dtostrf` (avr-libc,
fixed 5 fractional digits as called in the sketch) is modelled by `fmt5`.
The hardware collaborators (DallasTemperature, RF24, EthernetClient, the LED
pin, the watchdog) are modelled as an environment of pure inputs plus an
emitted trace of externally visible actions.
-/

namespace Pumphouse

/-- Capacity of the request/response buffer, `#define HTTP_BUFFER_SIZE 400`. -/
def HTTP_BUFFER_SIZE : Nat := 400

/-- Mesh connectivity check interval, `#define MESH_CHECK_INTERVAL 15000`. -/
def MESH_CHECK_INTERVAL : Nat := 15000

/-- Modulus of the 32-bit millisecond clock (`millis()` returns `uint32_t`). -/
def twoPow32 : Nat := 4294967296

/-- Friendly sensor names, `char* tempSensorNames[]` from the sketch. -/
def tempSensorNames : List String := ["Lake Water: ", "Outside Air: ", "Intake Pipe: "]

/-- Name of sensor `i` as a character list (out-of-range defaults to empty). -/
def sensorNameL (i : Nat) : List Char := (tempSensorNames.getD i "").data

/-- Does the pattern `p` occur at the head of `s`? (C string comparison step of
`strstr`.) -/
def leadsWith : List Char → List Char → Bool
  | [], _ => true
  | _ :: _, [] => false
  | p :: ps, c :: cs => p == c && leadsWith ps cs

/-- Model of `strstr s pat`: the suffix of `s` starting at the first occurrence
of `pat`, or `none` when `pat` does not occur (NULL). -/
def strstrSuffix : List Char → List Char → Option (List Char)
  | [], pat => if pat.isEmpty then some [] else none
  | c :: rest, pat =>
    if leadsWith pat (c :: rest) then some (c :: rest) else strstrSuffix rest pat

/-- Model of one `strsep(&p, " ")` call: the token up to the first space, and
the remainder after that space (`none` models `p` becoming NULL when no space
is found). -/
def strsep1 : List Char → List Char × Option (List Char)
  | [] => ([], none)
  | c :: rest =>
    if c = ' ' then ([], some rest)
    else
      let t := strsep1 rest
      (c :: t.1, t.2)

/-- View of a byte buffer as a C string: the bytes before the first NUL. -/
def cstring (l : List Char) : List Char := l.takeWhile (fun c => c ≠ Char.ofNat 0)

/-- First space-delimited token of a buffer (the HTTP method token). -/
def firstToken (l : List Char) : List Char := (strsep1 l).1

/-- Second space-delimited token of a buffer (the HTTP path token), when the
buffer has at least one space. -/
def secondToken (l : List Char) : Option (List Char) :=
  match (strsep1 l).2 with
  | none => none
  | some r => some (strsep1 r).1

/-- The literal searched for by `strstr(buf, "GET")`. -/
def GETpat : List Char := "GET".data

/-- The recognized path, compared by `strcmp(addr, "/temp")`. -/
def tempPath : List Char := "/temp".data

/-- Request outcome classification (spec §3 RequestOutcome); the sketch's
`enum error` plus the `transmit` flag carry the same five cases. -/
inductive Outcome
  | Serve
  | BufferOverflow
  | NotGetMethod
  | NotTempPath
  | Unknown
deriving DecidableEq

/-- Classification of a NUL-terminated request buffer, mirroring lines
228-248 of the sketch: `strstr` for "GET", then two `strsep` calls and a
`strcmp` against "/temp". Returns `none` exactly when the sketch would call
`strcmp(NULL, "/temp")` (no space after the "GET" occurrence), which is
undefined behavior in C. -/
def classifyBuf (buf : List Char) : Option Outcome :=
  match strstrSuffix buf GETpat with
  | none => some Outcome.NotGetMethod
  | some gettype =>
    match (strsep1 gettype).2 with
    | none => none
    | some rest1 =>
      let addr := (strsep1 rest1).1
      if addr = tempPath then some Outcome.Serve else some Outcome.NotTempPath

/-- The client read loop (lines 212-222). Because the C condition
`int dataToRead = client.waitAvailable() > 0` binds `dataToRead` to the
*boolean* comparison result, data is consumed one byte at a time; the loop
overflows when a byte remains but `1 <= HTTP_BUFFER_SIZE - idx` fails.
Returns the final index and whether the overflow branch was taken. -/
def readLoop : List Char → Nat → Nat × Bool
  | [], idx => (idx, false)
  | _ :: rest, idx =>
    if 1 ≤ HTTP_BUFFER_SIZE - idx then readLoop rest (idx + 1) else (idx, true)

/-- Outcome of servicing a connection whose inbound bytes are `input`:
the read loop may flag an overflow, otherwise the buffered bytes are
classified. `none` is the undefined `strcmp(NULL, _)` case. -/
def outcomeOf (input : List Char) : Option Outcome :=
  let res := readLoop input 0
  if res.2 then some Outcome.BufferOverflow
  else classifyBuf (cstring (input.take res.1))

/-- Decimal digit character for `m % 10`, as produced by C integer-to-decimal
conversion. -/
def decDigit (m : Nat) : Char := Char.ofNat (48 + m % 10)

/-- The five fractional digits of `k` (for `k < 100000`), zero padded, as
`dtostrf` produces for precision 5. -/
def pad5 (k : Nat) : List Char :=
  [decDigit (k / 10000), decDigit (k / 1000), decDigit (k / 100), decDigit (k / 10), decDigit k]

/-- Decimal digits of a natural number (fuel-based; `natToStrL` supplies
enough fuel). -/
def natDigitsAux : Nat → Nat → List Char
  | 0, _ => []
  | fuel + 1, n => if n = 0 then [] else natDigitsAux fuel (n / 10) ++ [decDigit n]

/-- Decimal representation of a natural number as a character list. -/
def natToStrL (n : Nat) : List Char := if n = 0 then ['0'] else natDigitsAux n n

/-- Value of `q` scaled by 100000 and rounded to the nearest integer
(half rounded up), computed on the numerator and denominator so that it
evaluates by kernel reduction: `round5 q = ⌊100000 * q + 1 / 2⌋`. -/
def round5 (q : ℚ) : ℤ := Int.fdiv (200000 * q.num + q.den) (2 * q.den)

/-- Model of `dtostrf(x, 0, 5, _)` from avr-libc as called by the sketch
(line 272): minimal width, exactly 5 fractional digits, round to nearest. -/
def fmt5 (q : ℚ) : List Char :=
  let n : ℤ := round5 q
  (if n < 0 then ['-'] else []) ++ natToStrL (n.natAbs / 100000)
    ++ '.' :: pad5 (n.natAbs % 100000)

/-- Join parts with a single bar separator between consecutive parts and none
after the last, as the serve loop's `strcat(buf, "|")` produces. -/
def joinBar : List (List Char) → List Char
  | [] => []
  | [x] => x
  | x :: y :: ys => x ++ '|' :: joinBar (y :: ys)

/-- Environment presented by the DallasTemperature library: reachability and
raw Celsius reading per sensor index, plus the device count found on the wire. -/
structure SensorsEnv where
  isConnected : Nat → Bool
  getTempC : Nat → ℚ
  numberOfOneWireDevices : Nat

/-- Externally visible actions of one control-loop iteration. -/
inductive Act
  | probe (ok : Bool)
  | led (v : Bool)
  | renew
  | flush
  | reqTemps
  | diag (i : Nat)
  | tx (s : List Char)
  | stop
  | wdt
  | undef
deriving DecidableEq

/-- Model of `saveTemperature(sensorId)` (lines 161-180): if the sensor is
connected, read it, subtract 0.9375 from sensor 2 only, and store; otherwise
leave the stored reading untouched and report a diagnostic. -/
def saveTemperature (e : SensorsEnv) (r : Nat → ℚ) (sensorId : Nat) : (Nat → ℚ) × List Act :=
  if e.isConnected sensorId then
    let tempC := e.getTempC sensorId
    let tempC2 := if sensorId = 2 then tempC - 0.9375 else tempC
    (Function.update r sensorId tempC2, [])
  else (r, [Act.diag sensorId])

/-- Index list `a, a+1, ..., a+k-1` traversed by the C `for` loop. -/
def idxs : Nat → Nat → List Nat
  | _, 0 => []
  | a, k + 1 => a :: idxs (a + 1) k

/-- The serve loop body (lines 263-281) over a list of sensor indices:
for each index, refresh via `saveTemperature`, then append name, formatted
reading, and a bar separator unless the index is the last device. Returns the
updated readings, the appended body text, and the diagnostic actions. -/
def serveList (e : SensorsEnv) : List Nat → (Nat → ℚ) → (Nat → ℚ) × List Char × List Act
  | [], r => (r, [], [])
  | i :: rest, r =>
    let s := saveTemperature e r i
    let t := serveList e rest s.1
    (t.1,
      sensorNameL i ++ fmt5 (s.1 i)
        ++ (if i < e.numberOfOneWireDevices - 1 then ['|'] else []) ++ t.2.1,
      s.2 ++ t.2.2)

/-- One full refresh-and-format pass over all detected devices. -/
def servePass (e : SensorsEnv) (r : Nat → ℚ) : (Nat → ℚ) × List Char × List Act :=
  serveList e (idxs 0 e.numberOfOneWireDevices) r

/-- The value stored (and printed) for index `i` by a serve pass that starts
from readings `r`: the calibrated fresh reading when reachable, the stale
prior reading otherwise. -/
def entryVal (e : SensorsEnv) (r : Nat → ℚ) (i : Nat) : ℚ :=
  if e.isConnected i then
    (if i = 2 then e.getTempC i - 0.9375 else e.getTempC i)
  else r i

/-- Fixed 200 header block written by `strcpy` at line 260. -/
def header200 : List Char :=
  "HTTP/1.1 200 OK \r\nContent-Type: text/plain \r\nConnection: close \r\nRefresh: 5 \r\n\r\n".data

/-- Trailing line ending appended at line 283. -/
def crlf : List Char := "\r\n".data

/-- Response for `ERR_BUF_OVERFLOW` (line 295). -/
def resp431 : List Char := "HTTP/1.1 431 Request Header Fields Too Large \r\n\r\n".data

/-- Response for `ERROR_NOT_GET_REQ` (line 298). -/
def resp405 : List Char := "HTTP/1.1 405 Method Not Allowed \r\n\r\n".data

/-- Response for `ERROR_NOT_TEMP_REQ` (line 301). -/
def resp501 : List Char :=
  "HTTP/1.1 501 Not Implemented \r\n\r\nOnly temperature(/temp) requests supported.\r\n".data

/-- Response for `ERR_UNKNOWN` (line 305). -/
def resp520 : List Char := "HTTP/1.1 520 Unknown Error \r\n\r\n".data

/-- Servicing one accepted connection (lines 200-309): read with overflow
check, flush leftovers, classify, then either run the serve pass and transmit
the built 200 response, or transmit the fixed error response; the connection
is closed in every defined case. The `Bool` is false exactly on the undefined
`strcmp(NULL, _)` path, where the modelled trace ends with `Act.undef`. -/
def serviceClient (e : SensorsEnv) (r : Nat → ℚ) (input : List Char) :
    (Nat → ℚ) × List Act × Bool :=
  match outcomeOf input with
  | none => (r, [Act.flush, Act.undef], false)
  | some Outcome.Serve =>
    let res := servePass e r
    (res.1,
      [Act.flush, Act.reqTemps] ++ res.2.2
        ++ [Act.tx (header200 ++ res.2.1 ++ crlf), Act.stop],
      true)
  | some Outcome.BufferOverflow => (r, [Act.flush, Act.tx resp431, Act.stop], true)
  | some Outcome.NotGetMethod => (r, [Act.flush, Act.tx resp405, Act.stop], true)
  | some Outcome.NotTempPath => (r, [Act.flush, Act.tx resp501, Act.stop], true)
  | some Outcome.Unknown => (r, [Act.flush, Act.tx resp520, Act.stop], true)

/-- The mesh-check guard at line 186: `millis() - mesh_timer > MESH_CHECK_INTERVAL`
with `uint32_t` subtraction (modulo 2^32, arguments reduced modulo 2^32). -/
def checkDue (now timer : Nat) : Bool :=
  MESH_CHECK_INTERVAL < (now % twoPow32 + twoPow32 - timer % twoPow32) % twoPow32

/-- Connectivity supervision step (lines 186-197): when the interval elapsed,
record the check time (whatever the probe result), probe, and on failure turn
the LED off, renew the mesh address, and turn the LED back on; on success turn
the LED on. Returns the updated `mesh_timer` and the action trace. -/
def meshCheck (now timer : Nat) (probeOk : Bool) : Nat × List Act :=
  if checkDue now timer then
    (now,
      Act.probe probeOk ::
        (if probeOk then [Act.led true] else [Act.led false, Act.renew, Act.led true]))
  else (timer, [])

/-- Inputs of one `loop()` iteration from all hardware collaborators. -/
structure LoopEnv where
  now : Nat
  probeOk : Bool
  client : Option (List Char)
  failureDetected : Bool
  sensors : SensorsEnv

/-- One iteration of `loop()` (lines 183-315): mesh check, then at most one
serviced connection, then `if (!radio.failureDetected) wdt_reset()`. On the
undefined classification path the modelled trace stops at `Act.undef`. -/
def loopIter (e : LoopEnv) (timer : Nat) (r : Nat → ℚ) : Nat × (Nat → ℚ) × List Act :=
  let m := meshCheck e.now timer e.probeOk
  let wdtActs : List Act := if e.failureDetected then [] else [Act.wdt]
  match e.client with
  | none => (m.1, r, m.2 ++ wdtActs)
  | some input =>
    let c := serviceClient e.sensors r input
    if c.2.2 then (m.1, c.1, m.2 ++ c.2.1 ++ wdtActs)
    else (m.1, c.1, m.2 ++ c.2.1)

/-- LED state after a trace, given the state it started in: the last value
written by an `Act.led`, if any. -/
def ledAfter (b : Bool) : List Act → Bool
  | [] => b
  | Act.led v :: rest => ledAfter v rest
  | _ :: rest => ledAfter b rest

/-- The ten decimal digit characters. -/
def digits10 : List Char := ['0', '1', '2', '3', '4', '5', '6', '7', '8', '9']

/-- A character list whose text has the form `<int>.<5 digits>`: some prefix
free of decimal points, then a point, then exactly five digit characters. -/
def fiveFracDigits (l : List Char) : Prop :=
  ∃ pre post, l = pre ++ '.' :: post ∧ post.length = 5
    ∧ (∀ c ∈ post, c.isDigit = true) ∧ (∀ c ∈ pre, c ≠ '.')

/-- The spec scenario request `"GET /temp HTTP/1.1\r\n\r\n"`. -/
def getTempReq : List Char := "GET /temp HTTP/1.1\r\n\r\n".data

/-- Sensor environment of the spec scenario: two devices found, both
reachable, reading 5.0 (Lake Water) and -1.0 (Outside Air) degrees. -/
def scenSensors : SensorsEnv where
  isConnected := fun _ => true
  getTempC := fun i => if i = 0 then 5 else -1
  numberOfOneWireDevices := 2

/-- A well-formed request whose method token is "POST" but whose header bytes
contain the substring "GET": the sketch finds "GET" mid-buffer and serves it. -/
def cex3 : List Char := "POST /x HTTP/1.1\r\nA: GET /temp q\r\n\r\n".data

/-- A request containing "GET" whose second space-delimited token is
"/other", yet whose first "GET" occurrence is followed by "/temp". -/
def cex4 : List Char := "x /other GET /temp y".data

/-- A request containing "GET" with no space anywhere after it: the sketch
reaches `strcmp(NULL, "/temp")`. -/
def cex5 : List Char := "GET\r\n\r\n".data

/-- Sensor environment with three devices where only device 1 is unreachable. -/
def envC9 : SensorsEnv where
  isConnected := fun i => i != 1
  getTempC := fun i => (i : ℚ)
  numberOfOneWireDevices := 3

/-- Sensor environment with three reachable devices. -/
def envC10 : SensorsEnv where
  isConnected := fun _ => true
  getTempC := fun i => (i : ℚ)
  numberOfOneWireDevices := 3

end Pumphouse

namespace Pumphouse

/-! Helper lemmas about the read loop. -/

lemma readLoop_big : ∀ (l : List Char) (idx : Nat), idx ≤ HTTP_BUFFER_SIZE →
    HTTP_BUFFER_SIZE < idx + l.length → readLoop l idx = (HTTP_BUFFER_SIZE, true) := by
  intro l
  induction l with
  | nil => intro idx h1 h2; simp at h2; omega
  | cons c rest ih =>
    intro idx h1 h2
    rw [readLoop]
    by_cases hlt : idx < HTTP_BUFFER_SIZE
    · have hc : 1 ≤ HTTP_BUFFER_SIZE - idx := by omega
      rw [if_pos hc]
      exact ih (idx + 1) (by omega) (by simp at h2 ⊢; omega)
    · have hidx : idx = HTTP_BUFFER_SIZE := by omega
      have hc : ¬ 1 ≤ HTTP_BUFFER_SIZE - idx := by omega
      rw [if_neg hc, hidx]

lemma readLoop_small : ∀ (l : List Char) (idx : Nat), idx + l.length ≤ HTTP_BUFFER_SIZE →
    readLoop l idx = (idx + l.length, false) := by
  intro l
  induction l with
  | nil => intro idx h; simp [readLoop]
  | cons c rest ih =>
    intro idx h
    rw [readLoop]
    have hc : 1 ≤ HTTP_BUFFER_SIZE - idx := by simp at h; omega
    rw [if_pos hc]
    rw [ih (idx + 1) (by simp at h ⊢; omega)]
    simp; omega

lemma outcomeOf_small (input : List Char) (h : input.length ≤ HTTP_BUFFER_SIZE) :
    outcomeOf input = classifyBuf (cstring input) := by
  rw [outcomeOf, readLoop_small input 0 (by omega)]
  simp [List.take_of_length_le]

lemma outcomeOf_big (input : List Char) (h : HTTP_BUFFER_SIZE < input.length) :
    outcomeOf input = some Outcome.BufferOverflow := by
  rw [outcomeOf, readLoop_big input 0 (by omega) (by omega)]
  rfl

/-! Helper lemmas about the index list and the refresh pass. -/

lemma mem_idxs : ∀ (k a j : Nat), j ∈ idxs a k ↔ a ≤ j ∧ j < a + k := by
  intro k
  induction k with
  | zero => intro a j; simp [idxs]
  | succ n ih =>
    intro a j
    rw [idxs]
    simp only [List.mem_cons, ih (a + 1) j]
    omega

lemma idxs_nodup : ∀ (k a : Nat), (idxs a k).Nodup := by
  intro k
  induction k with
  | zero => intro a; simp [idxs]
  | succ n ih =>
    intro a
    rw [idxs]
    refine List.nodup_cons.2 ⟨?_, ih (a + 1)⟩
    rw [mem_idxs]
    omega

lemma saveTemperature_self (e : SensorsEnv) (r : Nat → ℚ) (i : Nat) :
    (saveTemperature e r i).1 i = entryVal e r i := by
  by_cases hc : e.isConnected i <;>
    simp [saveTemperature, entryVal, hc]

lemma saveTemperature_other (e : SensorsEnv) (r : Nat → ℚ) (i j : Nat) (h : j ≠ i) :
    (saveTemperature e r i).1 j = r j := by
  by_cases hc : e.isConnected i <;>
    simp [saveTemperature, hc, Function.update_noteq h]

lemma entryVal_congr (e : SensorsEnv) (rA rB : Nat → ℚ) (j : Nat) (h : rA j = rB j) :
    entryVal e rA j = entryVal e rB j := by
  unfold entryVal; rw [h]

lemma serveList_not_mem (e : SensorsEnv) :
    ∀ (l : List Nat) (r : Nat → ℚ) (j : Nat), j ∉ l → (serveList e l r).1 j = r j := by
  intro l
  induction l with
  | nil => intro r j _; rfl
  | cons i rest ih =>
    intro r j hj
    have h1 : j ≠ i := fun h => hj (h ▸ List.mem_cons_self i rest)
    have h2 : j ∉ rest := fun h => hj (List.mem_cons_of_mem i h)
    show (serveList e rest (saveTemperature e r i).1).1 j = r j
    rw [ih _ j h2, saveTemperature_other e r i j h1]

lemma serveList_val (e : SensorsEnv) :
    ∀ (l : List Nat) (r : Nat → ℚ) (j : Nat), l.Nodup → j ∈ l →
      (serveList e l r).1 j = entryVal e r j := by
  intro l
  induction l with
  | nil => intro r j _ hj; simp at hj
  | cons i rest ih =>
    intro r j hnd hj
    have hnd2 := List.nodup_cons.1 hnd
    rcases List.mem_cons.1 hj with hji | hjr
    · subst hji
      show (serveList e rest (saveTemperature e r j).1).1 j = entryVal e r j
      rw [serveList_not_mem e rest _ j hnd2.1, saveTemperature_self]
    · have hji : j ≠ i := fun h => hnd2.1 (h ▸ hjr)
      show (serveList e rest (saveTemperature e r i).1).1 j = entryVal e r j
      rw [ih _ j hnd2.2 hjr,
        entryVal_congr e _ r j (saveTemperature_other e r i j hji)]

lemma serveList_diag (e : SensorsEnv) :
    ∀ (l : List Nat) (r : Nat → ℚ) (j : Nat), j ∈ l → e.isConnected j = false →
      Act.diag j ∈ (serveList e l r).2.2 := by
  intro l
  induction l with
  | nil => intro r j hj _; simp at hj
  | cons i rest ih =>
    intro r j hj hconn
    show Act.diag j ∈ (saveTemperature e r i).2 ++ (serveList e rest (saveTemperature e r i).1).2.2
    rcases List.mem_cons.1 hj with hji | hjr
    · subst hji
      refine List.mem_append.2 (Or.inl ?_)
      simp [saveTemperature, hconn]
    · exact List.mem_append.2 (Or.inr (ih _ j hjr hconn))

lemma serveList_acts_diag (e : SensorsEnv) :
    ∀ (l : List Nat) (r : Nat → ℚ) (a : Act), a ∈ (serveList e l r).2.2 →
      ∃ i, a = Act.diag i := by
  intro l
  induction l with
  | nil => intro r a ha; simp [serveList] at ha
  | cons i rest ih =>
    intro r a ha
    replace ha : a ∈ (saveTemperature e r i).2
        ++ (serveList e rest (saveTemperature e r i).1).2.2 := ha
    rcases List.mem_append.1 ha with h | h
    · by_cases hc : e.isConnected i
      · simp [saveTemperature, hc] at h
      · simp [saveTemperature, hc] at h
        exact ⟨i, h⟩
    · exact ih _ a h

/-! Helper lemmas about the decimal formatter. -/

lemma decDigit_mem (m : Nat) : decDigit m ∈ digits10 := by
  have h10 : m % 10 = 0 ∨ m % 10 = 1 ∨ m % 10 = 2 ∨ m % 10 = 3 ∨ m % 10 = 4 ∨ m % 10 = 5
      ∨ m % 10 = 6 ∨ m % 10 = 7 ∨ m % 10 = 8 ∨ m % 10 = 9 := by omega
  rcases h10 with h | h | h | h | h | h | h | h | h | h <;>
    · simp only [decDigit, h]
      decide

lemma digits10_isDigit {c : Char} (h : c ∈ digits10) : c.isDigit = true := by
  fin_cases h <;> decide

lemma digits10_ne_dot {c : Char} (h : c ∈ digits10) : c ≠ '.' := by
  fin_cases h <;> decide

lemma digits10_ne_bar {c : Char} (h : c ∈ digits10) : c ≠ '|' := by
  fin_cases h <;> decide

lemma pad5_mem {k : Nat} {c : Char} (h : c ∈ pad5 k) : c ∈ digits10 := by
  simp only [pad5, List.mem_cons, List.not_mem_nil, or_false] at h
  rcases h with h | h | h | h | h <;> (subst h; exact decDigit_mem _)

lemma natDigitsAux_mem : ∀ (fuel n : Nat) (c : Char), c ∈ natDigitsAux fuel n →
    c ∈ digits10 := by
  intro fuel
  induction fuel with
  | zero => intro n c h; simp [natDigitsAux] at h
  | succ m ih =>
    intro n c h
    rw [natDigitsAux] at h
    by_cases hn : n = 0
    · simp [hn] at h
    · rw [if_neg hn] at h
      rcases List.mem_append.1 h with h1 | h1
      · exact ih _ c h1
      · simp at h1
        subst h1
        exact decDigit_mem _

lemma natToStrL_mem {n : Nat} {c : Char} (h : c ∈ natToStrL n) : c ∈ digits10 := by
  rw [natToStrL] at h
  by_cases hn : n = 0
  · rw [if_pos hn] at h
    simp at h
    subst h
    decide
  · rw [if_neg hn] at h
    exact natDigitsAux_mem n n c h

lemma fmt5_mem {q : ℚ} {c : Char} (h : c ∈ fmt5 q) : c ∈ '-' :: '.' :: digits10 := by
  rw [fmt5] at h
  rcases List.mem_append.1 h with h1 | h1
  · rcases List.mem_append.1 h1 with h2 | h2
    · by_cases hneg : round5 q < 0
      · rw [if_pos hneg] at h2
        simp at h2
        subst h2
        decide
      · rw [if_neg hneg] at h2
        simp at h2
    · have := natToStrL_mem h2
      simp [List.mem_cons] at this ⊢
      tauto
  · rcases List.mem_cons.1 h1 with h2 | h2
    · subst h2; decide
    · have := pad5_mem h2
      simp [List.mem_cons] at this ⊢
      tauto

lemma fmt5_count_bar (q : ℚ) : (fmt5 q).count '|' = 0 := by
  rw [List.count_eq_zero]
  intro hmem
  exact absurd (fmt5_mem hmem) (by decide)

lemma fmt5_fiveFrac (q : ℚ) : fiveFracDigits (fmt5 q) := by
  refine ⟨(if round5 q < 0 then ['-'] else []) ++ natToStrL ((round5 q).natAbs / 100000),
    pad5 ((round5 q).natAbs % 100000), ?_, rfl, ?_, ?_⟩
  · rw [fmt5, List.append_assoc]
  · intro c hc
    exact digits10_isDigit (pad5_mem hc)
  · intro c hc
    rcases List.mem_append.1 hc with h1 | h1
    · by_cases hneg : round5 q < 0
      · rw [if_pos hneg] at h1
        simp at h1
        subst h1
        decide
      · rw [if_neg hneg] at h1
        simp at h1
    · exact digits10_ne_dot (natToStrL_mem h1)

/-! Helper lemmas about the response body join. -/

lemma joinBar_cons2 (x y : List Char) (ys : List (List Char)) :
    joinBar (x :: y :: ys) = x ++ '|' :: joinBar (y :: ys) := rfl

lemma joinBar_count (parts : List (List Char)) (h : ∀ p ∈ parts, p.count '|' = 0) :
    (joinBar parts).count '|' = parts.length - 1 := by
  induction parts with
  | nil => simp [joinBar]
  | cons x xs ih =>
    cases xs with
    | nil => simpa [joinBar] using h x (by simp)
    | cons y ys =>
      have hx := h x (by simp)
      have hrest : ∀ p ∈ y :: ys, p.count '|' = 0 := fun p hp => h p (by simp [hp])
      have hr := ih hrest
      rw [joinBar_cons2, List.count_append, hx, List.count_cons, hr]
      simp

lemma sensorNameL_count_bar (i : Nat) : (sensorNameL i).count '|' = 0 := by
  match i with
  | 0 => decide
  | 1 => decide
  | 2 => decide
  | n + 3 => simp [sensorNameL, tempSensorNames, List.getD]

lemma serveList_body (e : SensorsEnv) :
    ∀ (k a : Nat) (r : Nat → ℚ), a + k = e.numberOfOneWireDevices →
      (serveList e (idxs a k) r).2.1
        = joinBar ((idxs a k).map fun i => sensorNameL i ++ fmt5 (entryVal e r i)) := by
  intro k
  induction k with
  | zero => intro a r _; simp [idxs, serveList, joinBar]
  | succ m ih =>
    intro a r hnum
    rw [idxs]
    show sensorNameL a ++ fmt5 ((saveTemperature e r a).1 a)
        ++ (if a < e.numberOfOneWireDevices - 1 then ['|'] else [])
        ++ (serveList e (idxs (a + 1) m) (saveTemperature e r a).1).2.1
      = joinBar ((a :: idxs (a + 1) m).map fun i => sensorNameL i ++ fmt5 (entryVal e r i))
    rw [saveTemperature_self]
    have hmap : ((idxs (a + 1) m).map fun i => sensorNameL i ++ fmt5 (entryVal e (saveTemperature e r a).1 i))
        = (idxs (a + 1) m).map fun i => sensorNameL i ++ fmt5 (entryVal e r i) := by
      refine List.map_congr_left ?_
      intro i hi
      have hia : i ≠ a := by
        have := (mem_idxs m (a + 1) i).1 hi
        omega
      rw [entryVal_congr e _ r i (saveTemperature_other e r a i hia)]
    rw [ih (a + 1) (saveTemperature e r a).1 (by omega), hmap]
    cases m with
    | zero =>
      have hsep : ¬ a < e.numberOfOneWireDevices - 1 := by omega
      rw [if_neg hsep]
      simp [idxs, joinBar]
    | succ m2 =>
      have hsep : a < e.numberOfOneWireDevices - 1 := by omega
      rw [if_pos hsep]
      conv_rhs => rw [List.map_cons, idxs, List.map_cons, joinBar_cons2]
      conv_lhs => rw [idxs, List.map_cons]
      simp [List.append_assoc]

/-! Helper lemmas about the control loop trace. -/

lemma getLast?_append_singleton {α : Type} : ∀ (l : List α) (a : α),
    (l ++ [a]).getLast? = some a := by
  intro l a
  induction l with
  | nil => rfl
  | cons x xs ih =>
    cases xs with
    | nil => rfl
    | cons y ys =>
      rw [List.cons_append] at ih ⊢
      rw [List.cons_append, List.getLast?_cons_cons]
      exact ih

lemma meshCheck_not_wdt (now timer : Nat) (p : Bool) :
    Act.wdt ∉ (meshCheck now timer p).2 := by
  by_cases hdue : checkDue now timer <;> cases p <;> simp [meshCheck, hdue]

lemma meshCheck_not_undef (now timer : Nat) (p : Bool) :
    Act.undef ∉ (meshCheck now timer p).2 := by
  by_cases hdue : checkDue now timer <;> cases p <;> simp [meshCheck, hdue]

lemma serviceClient_not_wdt (e : SensorsEnv) (r : Nat → ℚ) (input : List Char) :
    Act.wdt ∉ (serviceClient e r input).2.1 := by
  cases houtcome : outcomeOf input with
  | none => simp [serviceClient, houtcome]
  | some o =>
    cases o with
    | Serve =>
      intro h
      have htr : (serviceClient e r input).2.1
          = [Act.flush, Act.reqTemps] ++ (servePass e r).2.2
            ++ [Act.tx (header200 ++ (servePass e r).2.1 ++ crlf), Act.stop] := by
        simp [serviceClient, houtcome]
      rw [htr] at h
      rcases List.mem_append.1 h with h1 | h1
      · rcases List.mem_append.1 h1 with h2 | h2
        · simp at h2
        · obtain ⟨i, hi⟩ := serveList_acts_diag e _ _ _ h2
          exact Act.noConfusion hi
      · simp at h1
    | BufferOverflow => simp [serviceClient, houtcome]
    | NotGetMethod => simp [serviceClient, houtcome]
    | NotTempPath => simp [serviceClient, houtcome]
    | Unknown => simp [serviceClient, houtcome]

lemma serviceClient_undef_iff (e : SensorsEnv) (r : Nat → ℚ) (input : List Char) :
    (serviceClient e r input).2.2 = false ↔ outcomeOf input = none := by
  cases houtcome : outcomeOf input with
  | none => simp [serviceClient, houtcome]
  | some o => cases o <;> simp [serviceClient, houtcome]

lemma checkDue_wrap (T1 T2 : Nat) (h1 : T1 ≤ T2) (h2 : T2 - T1 < twoPow32) :
    (T2 % twoPow32 + twoPow32 - T1 % twoPow32) % twoPow32 = T2 - T1 := by
  simp only [twoPow32] at h2 ⊢
  omega

lemma serviceClient_overflow (e : SensorsEnv) (r : Nat → ℚ) (input : List Char)
    (h : outcomeOf input = some Outcome.BufferOverflow) :
    serviceClient e r input = (r, [Act.flush, Act.tx resp431, Act.stop], true) := by
  unfold serviceClient
  rw [h]

lemma serviceClient_notget (e : SensorsEnv) (r : Nat → ℚ) (input : List Char)
    (h : outcomeOf input = some Outcome.NotGetMethod) :
    serviceClient e r input = (r, [Act.flush, Act.tx resp405, Act.stop], true) := by
  unfold serviceClient
  rw [h]

lemma serviceClient_nottemp (e : SensorsEnv) (r : Nat → ℚ) (input : List Char)
    (h : outcomeOf input = some Outcome.NotTempPath) :
    serviceClient e r input = (r, [Act.flush, Act.tx resp501, Act.stop], true) := by
  unfold serviceClient
  rw [h]

lemma serviceClient_serve (e : SensorsEnv) (r : Nat → ℚ) (input : List Char)
    (h : outcomeOf input = some Outcome.Serve) :
    serviceClient e r input
      = ((servePass e r).1,
          [Act.flush, Act.reqTemps] ++ (servePass e r).2.2
            ++ [Act.tx (header200 ++ (servePass e r).2.1 ++ crlf), Act.stop],
          true) := by
  unfold serviceClient
  rw [h]

lemma idxs_length : ∀ (k a : Nat), (idxs a k).length = k := by
  intro k
  induction k with
  | zero => intro a; rfl
  | succ n ih => intro a; rw [idxs, List.length_cons, ih (a + 1)]

lemma loopIter_mesh_head (e : LoopEnv) (timer : Nat) (r : Nat → ℚ) :
    ∃ rest, (loopIter e timer r).2.2 = (meshCheck e.now timer e.probeOk).2 ++ rest := by
  cases hcl : e.client with
  | none =>
    exact ⟨(if e.failureDetected then [] else [Act.wdt]), by simp [loopIter, hcl]⟩
  | some input =>
    by_cases hok : (serviceClient e.sensors r input).2.2
    · exact ⟨(serviceClient e.sensors r input).2.1 ++ (if e.failureDetected then [] else [Act.wdt]),
        by simp [loopIter, hcl, hok, List.append_assoc]⟩
    · exact ⟨(serviceClient e.sensors r input).2.1,
        by simp [loopIter, hcl, hok]⟩

/-! Claim theorems. -/

/-- C2: every inbound byte sequence longer than the 400-byte buffer stops the
read loop once remaining capacity is insufficient, is classified
BufferOverflow, triggers no parsing and no partial response, leaves the
stored readings unchanged, and is answered with exactly the 431 line before
the connection is closed (the flush discards leftover input). -/
theorem C2_overflow_rejects (input : List Char) (e : SensorsEnv) (r : Nat → ℚ)
    (h : HTTP_BUFFER_SIZE < input.length) :
    outcomeOf input = some Outcome.BufferOverflow
    ∧ serviceClient e r input = (r, [Act.flush, Act.tx resp431, Act.stop], true) := by
  have ho := outcomeOf_big input h
  exact ⟨ho, serviceClient_overflow e r input ho⟩

/-- Witness for C2 at a concrete 401-byte input. -/
theorem C2_overflow_rejects_witness :
    outcomeOf (List.replicate 401 'A') = some Outcome.BufferOverflow
    ∧ serviceClient scenSensors (fun _ => 0) (List.replicate 401 'A')
      = (fun _ => (0 : ℚ), [Act.flush, Act.tx resp431, Act.stop], true) :=
  C2_overflow_rejects (List.replicate 401 'A') scenSensors (fun _ => 0)
    (by rw [List.length_replicate]; decide)

/-- C3 counterexample: a well-formed request whose method token is "POST"
(not "GET") but whose bytes contain the substring "GET" inside a header; the
sketch classifies it Serve (it even serves the temperatures), not
NotGetMethod, and does not transmit the 405 response the claim requires. -/
theorem C3_non_get_counterexample :
    firstToken cex3 = "POST".data
    ∧ firstToken cex3 ≠ GETpat
    ∧ outcomeOf cex3 = some Outcome.Serve
    ∧ (serviceClient scenSensors (fun _ => 0) cex3).2.1
        ≠ [Act.flush, Act.tx resp405, Act.stop] :=
  ⟨by decide, by decide, by decide, by decide⟩

/-- C3 amended: for every request (within buffer capacity) whose bytes do not
contain the substring "GET" anywhere, the outcome is NotGetMethod, exactly
the 405 response is transmitted, the connection is closed, the stored
readings are unchanged and no sensor refresh is triggered. -/
theorem C3_non_get_amended (input : List Char) (e : SensorsEnv) (r : Nat → ℚ)
    (hlen : input.length ≤ HTTP_BUFFER_SIZE)
    (hno : strstrSuffix (cstring input) GETpat = none) :
    outcomeOf input = some Outcome.NotGetMethod
    ∧ serviceClient e r input = (r, [Act.flush, Act.tx resp405, Act.stop], true) := by
  have ho : outcomeOf input = some Outcome.NotGetMethod := by
    rw [outcomeOf_small input hlen]
    simp [classifyBuf, hno]
  exact ⟨ho, serviceClient_notget e r input ho⟩

/-- Witness for the amended C3 at the spec scenario request POST /temp. -/
theorem C3_non_get_amended_witness :
    outcomeOf "POST /temp HTTP/1.1\r\n\r\n".data = some Outcome.NotGetMethod
    ∧ serviceClient scenSensors (fun _ => 0) "POST /temp HTTP/1.1\r\n\r\n".data
      = (fun _ => (0 : ℚ), [Act.flush, Act.tx resp405, Act.stop], true) :=
  C3_non_get_amended "POST /temp HTTP/1.1\r\n\r\n".data scenSensors (fun _ => 0)
    (by decide) (by decide)

/-- C4 counterexample: a request containing "GET" whose second space-delimited
token is "/other" (not "/temp"); the sketch splits from the first "GET"
occurrence, reads "/temp" there, and classifies Serve instead of the
claimed NotTempPath with the 501 response. -/
theorem C4_wrong_path_counterexample :
    secondToken cex4 = some "/other".data
    ∧ some "/other".data ≠ some tempPath
    ∧ outcomeOf cex4 = some Outcome.Serve
    ∧ (serviceClient scenSensors (fun _ => 0) cex4).2.1
        ≠ [Act.flush, Act.tx resp501, Act.stop] :=
  ⟨by decide, by decide, by decide, by decide⟩

/-- C4 amended: for every request (within buffer capacity) containing "GET",
when the token between the first and second space after the first "GET"
occurrence exists and differs from "/temp" under exact case-sensitive
comparison, the outcome is NotTempPath and exactly the 501 response is
transmitted before the connection closes, readings unchanged. -/
theorem C4_wrong_path_amended (input : List Char) (e : SensorsEnv) (r : Nat → ℚ)
    (suf rest1 : List Char)
    (hlen : input.length ≤ HTTP_BUFFER_SIZE)
    (hfind : strstrSuffix (cstring input) GETpat = some suf)
    (hsp : (strsep1 suf).2 = some rest1)
    (haddr : (strsep1 rest1).1 ≠ tempPath) :
    outcomeOf input = some Outcome.NotTempPath
    ∧ serviceClient e r input = (r, [Act.flush, Act.tx resp501, Act.stop], true) := by
  have ho : outcomeOf input = some Outcome.NotTempPath := by
    rw [outcomeOf_small input hlen]
    simp [classifyBuf, hfind, hsp, haddr]
  exact ⟨ho, serviceClient_nottemp e r input ho⟩

/-- Witness for the amended C4 at the request GET /other. -/
theorem C4_wrong_path_amended_witness :
    outcomeOf "GET /other HTTP/1.1\r\n\r\n".data = some Outcome.NotTempPath
    ∧ serviceClient scenSensors (fun _ => 0) "GET /other HTTP/1.1\r\n\r\n".data
      = (fun _ => (0 : ℚ), [Act.flush, Act.tx resp501, Act.stop], true) :=
  C4_wrong_path_amended "GET /other HTTP/1.1\r\n\r\n".data scenSensors (fun _ => 0)
    "GET /other HTTP/1.1\r\n\r\n".data "/other HTTP/1.1\r\n\r\n".data
    (by decide) (by decide) (by decide) (by decide)

/-- C5: the input "GET\r\n\r\n" (it contains "GET" but no space afterwards)
drives the sketch into `strcmp(NULL, "/temp")` — undefined behavior — so the
connection is serviced by no classified outcome and no response: the claim
that every input ends in one of the five outcomes with a transmitted response
fails on this input. -/
theorem C5_undefined_strcmp_null :
    outcomeOf cex5 = none
    ∧ (serviceClient scenSensors (fun _ => 0) cex5).2
        = ([Act.flush, Act.undef], false) :=
  ⟨by decide, by decide⟩

/-- C1: for a `GET /temp` request the transmitted response is the fixed 200
header block, then one label/formatted-value pair per detected sensor in
declaration order joined by single bars (exactly N-1 of them, none after the
last), terminated by CRLF, each value printed with exactly 5 fractional
digits; and at the spec scenario (two sensors reading 5.0 and -1.0) the body
is exactly "Lake Water: 5.00000|Outside Air: -1.00000" with CRLF. -/
theorem C1_serve_response (e : SensorsEnv) (r : Nat → ℚ)
    (hnum : e.numberOfOneWireDevices ≤ 3) :
    ((serviceClient e r getTempReq).2.1
        = [Act.flush, Act.reqTemps] ++ (servePass e r).2.2
          ++ [Act.tx (header200 ++ (servePass e r).2.1 ++ crlf), Act.stop])
    ∧ (servePass e r).2.1
        = joinBar ((idxs 0 e.numberOfOneWireDevices).map
            fun i => sensorNameL i ++ fmt5 (entryVal e r i))
    ∧ (servePass e r).2.1.count '|' = e.numberOfOneWireDevices - 1
    ∧ (∀ q : ℚ, fiveFracDigits (fmt5 q))
    ∧ (serviceClient scenSensors (fun _ => 0) getTempReq).2.1
        = [Act.flush, Act.reqTemps,
            Act.tx (header200 ++ "Lake Water: 5.00000|Outside Air: -1.00000".data ++ crlf),
            Act.stop] := by
  have hbody : (servePass e r).2.1
      = joinBar ((idxs 0 e.numberOfOneWireDevices).map
          fun i => sensorNameL i ++ fmt5 (entryVal e r i)) :=
    serveList_body e e.numberOfOneWireDevices 0 r (by omega)
  refine ⟨?_, hbody, ?_, fmt5_fiveFrac, by decide⟩
  · have ho : outcomeOf getTempReq = some Outcome.Serve := by decide
    rw [serviceClient_serve e r getTempReq ho]
  · rw [hbody, joinBar_count]
    · rw [List.length_map, idxs_length]
    · intro p hp
      obtain ⟨i, hi, hpe⟩ := List.mem_map.1 hp
      rw [← hpe, List.count_append, sensorNameL_count_bar, fmt5_count_bar]

/-- Witness for C1 at the spec scenario environment. -/
theorem C1_serve_response_witness :
    (servePass scenSensors (fun _ => 0)).2.1
      = joinBar ((idxs 0 scenSensors.numberOfOneWireDevices).map
          fun i => sensorNameL i ++ fmt5 (entryVal scenSensors (fun _ => 0) i))
    ∧ (servePass scenSensors (fun _ => 0)).2.1.count '|'
        = scenSensors.numberOfOneWireDevices - 1 :=
  ⟨(C1_serve_response scenSensors (fun _ => 0) (by decide)).2.1,
    (C1_serve_response scenSensors (fun _ => 0) (by decide)).2.2.1⟩

/-- C6: whenever the periodic check fires and the probe fails, the iteration
trace begins with the failed probe, an LED-off write, the blocking renew, and
an LED-on write in that order, so the indicator is off at every point
strictly between the failed probe and the completion of renew and on
immediately after renew returns (the model gives `renewAddress` no success
signal, matching the sketch, which ignores its return value); when the probe
succeeds, the LED is switched on right after it. -/
theorem C6_led_during_rejoin (e : LoopEnv) (timer : Nat) (r : Nat → ℚ) (b : Bool)
    (hdue : checkDue e.now timer = true) :
    (e.probeOk = false → ∃ rest,
        (loopIter e timer r).2.2
          = Act.probe false :: Act.led false :: Act.renew :: Act.led true :: rest
        ∧ ledAfter b [Act.probe false, Act.led false] = false
        ∧ ledAfter b [Act.probe false, Act.led false, Act.renew] = false
        ∧ ledAfter b [Act.probe false, Act.led false, Act.renew, Act.led true] = true)
    ∧ (e.probeOk = true → ∃ rest,
        (loopIter e timer r).2.2 = Act.probe true :: Act.led true :: rest
        ∧ ledAfter b [Act.probe true, Act.led true] = true) := by
  obtain ⟨rest, hrest⟩ := loopIter_mesh_head e timer r
  constructor
  · intro hp
    refine ⟨rest, ?_, rfl, rfl, rfl⟩
    rw [hrest]
    simp [meshCheck, hdue, hp]
  · intro hp
    refine ⟨rest, ?_, rfl⟩
    rw [hrest]
    simp [meshCheck, hdue, hp]

/-- Witness for C6 at a concrete failed-probe iteration. -/
theorem C6_led_during_rejoin_witness :
    ∃ rest,
      (loopIter ⟨20000, false, none, false, scenSensors⟩ 0 (fun _ => 0)).2.2
        = Act.probe false :: Act.led false :: Act.renew :: Act.led true :: rest
      ∧ ledAfter true [Act.probe false, Act.led false] = false
      ∧ ledAfter true [Act.probe false, Act.led false, Act.renew] = false
      ∧ ledAfter true [Act.probe false, Act.led false, Act.renew, Act.led true] = true :=
  (C6_led_during_rejoin ⟨20000, false, none, false, scenSensors⟩ 0 (fun _ => 0) true
    (by decide)).1 rfl

/-- C7: in every defined loop iteration the watchdog reset appears exactly
once when the radio failure flag is clear — and as the very last action of
the iteration — and not at all when the flag is set. -/
theorem C7_watchdog_once (e : LoopEnv) (timer : Nat) (r : Nat → ℚ)
    (h : Act.undef ∉ (loopIter e timer r).2.2) :
    (loopIter e timer r).2.2.count Act.wdt = (if e.failureDetected then 0 else 1)
    ∧ (e.failureDetected = false → (loopIter e timer r).2.2.getLast? = some Act.wdt)
    ∧ (e.failureDetected = true → Act.wdt ∉ (loopIter e timer r).2.2) := by
  have hmesh0 : ((meshCheck e.now timer e.probeOk).2.count Act.wdt) = 0 :=
    List.count_eq_zero.2 (meshCheck_not_wdt e.now timer e.probeOk)
  cases hcl : e.client with
  | none =>
    have htr : (loopIter e timer r).2.2
        = (meshCheck e.now timer e.probeOk).2
          ++ (if e.failureDetected then [] else [Act.wdt]) := by
      simp [loopIter, hcl]
    refine ⟨?_, ?_, ?_⟩
    · rw [htr, List.count_append, hmesh0]
      cases hf : e.failureDetected <;> simp
    · intro hf
      rw [htr, hf, if_neg Bool.false_ne_true]
      exact getLast?_append_singleton _ _
    · intro hf
      rw [htr, hf, if_pos rfl, List.append_nil]
      exact meshCheck_not_wdt e.now timer e.probeOk
  | some input =>
    cases hok : (serviceClient e.sensors r input).2.2 with
    | false =>
      exfalso
      have houtcome := (serviceClient_undef_iff e.sensors r input).1 hok
      have htr : (loopIter e timer r).2.2
          = (meshCheck e.now timer e.probeOk).2 ++ [Act.flush, Act.undef] := by
        have hcli : serviceClient e.sensors r input = (r, [Act.flush, Act.undef], false) := by
          unfold serviceClient
          rw [houtcome]
        simp [loopIter, hcl, hcli]
      apply h
      rw [htr]
      exact List.mem_append.2 (Or.inr (by simp))
    | true =>
      have hsvc0 : ((serviceClient e.sensors r input).2.1.count Act.wdt) = 0 :=
        List.count_eq_zero.2 (serviceClient_not_wdt e.sensors r input)
      have htr : (loopIter e timer r).2.2
          = (meshCheck e.now timer e.probeOk).2 ++ (serviceClient e.sensors r input).2.1
            ++ (if e.failureDetected then [] else [Act.wdt]) := by
        simp [loopIter, hcl, hok]
      refine ⟨?_, ?_, ?_⟩
      · rw [htr, List.count_append, List.count_append, hmesh0, hsvc0]
        cases hf : e.failureDetected <;> simp
      · intro hf
        rw [htr, hf, if_neg Bool.false_ne_true]
        exact getLast?_append_singleton _ _
      · intro hf
        rw [htr, hf, if_pos rfl, List.append_nil]
        intro hmem
        rcases List.mem_append.1 hmem with h1 | h1
        · exact meshCheck_not_wdt e.now timer e.probeOk h1
        · exact serviceClient_not_wdt e.sensors r input h1

/-- Witness for C7 at a concrete iteration without radio failure. -/
theorem C7_watchdog_once_witness :
    (loopIter ⟨0, true, none, false, scenSensors⟩ 0 (fun _ => 0)).2.2.count Act.wdt
      = (if (⟨0, true, none, false, scenSensors⟩ : LoopEnv).failureDetected then 0 else 1) :=
  (C7_watchdog_once ⟨0, true, none, false, scenSensors⟩ 0 (fun _ => 0) (by decide)).1

/-- C8: the elapsed-time guard for the mesh probe is wraparound-correct
modulo 2^32, never fires within 15000 ms of the previous check, performs no
probe when it does not fire, and when it fires it records the time of this
check (regardless of the probe result) and performs the probe. -/
theorem C8_mesh_interval :
    (∀ T1 T2 : Nat, T1 ≤ T2 → T2 - T1 < twoPow32 →
        (T2 % twoPow32 + twoPow32 - T1 % twoPow32) % twoPow32 = T2 - T1)
    ∧ (∀ T1 T2 : Nat, T1 ≤ T2 → T2 - T1 ≤ MESH_CHECK_INTERVAL → checkDue T2 T1 = false)
    ∧ (∀ now timer : Nat, checkDue now timer = false →
        ∀ p, meshCheck now timer p = (timer, []))
    ∧ (∀ now timer : Nat, checkDue now timer = true →
        ∀ p, (meshCheck now timer p).1 = now ∧ Act.probe p ∈ (meshCheck now timer p).2) := by
  refine ⟨checkDue_wrap, ?_, ?_, ?_⟩
  · intro T1 T2 hle hsmall
    have hw := checkDue_wrap T1 T2 hle
      (by simp only [MESH_CHECK_INTERVAL] at hsmall; simp only [twoPow32]; omega)
    have hnot : ¬ (MESH_CHECK_INTERVAL < T2 - T1) := by
      simp only [MESH_CHECK_INTERVAL] at hsmall ⊢
      omega
    simp [checkDue, hw, hnot]
  · intro now timer hd p
    simp [meshCheck, hd]
  · intro now timer hd p
    refine ⟨by simp [meshCheck, hd], by simp [meshCheck, hd]⟩

/-- Witness for C8: a wraparound elapsed-time computation across the 2^32
boundary, a guard that stays quiet 15000 ms after a check, a quiet interval
performing no probe, and a due check probing and restamping the timer. -/
theorem C8_mesh_interval_witness :
    ((4294967300 % twoPow32 + twoPow32 - 4294967295 % twoPow32) % twoPow32
        = 4294967300 - 4294967295)
    ∧ checkDue 15000 0 = false
    ∧ meshCheck 10 5 true = (5, [])
    ∧ (meshCheck 20000 0 false).1 = 20000 ∧ Act.probe false ∈ (meshCheck 20000 0 false).2 :=
  ⟨C8_mesh_interval.1 4294967295 4294967300 (by decide) (by decide),
    C8_mesh_interval.2.1 0 15000 (by decide) (by decide),
    C8_mesh_interval.2.2.1 10 5 (by decide) true,
    C8_mesh_interval.2.2.2 20000 0 (by decide) false⟩

/-- C9: in a refresh pass each detected sensor is attempted independently:
an unreachable sensor keeps its prior stored reading and contributes a
diagnostic action, while every reachable sensor gets its calibrated fresh
reading stored whatever happened to the other sensors. -/
theorem C9_refresh_independent (e : SensorsEnv) (r : Nat → ℚ) (i : Nat)
    (hi : i < e.numberOfOneWireDevices) :
    (e.isConnected i = false →
      (servePass e r).1 i = r i ∧ Act.diag i ∈ (servePass e r).2.2)
    ∧ (e.isConnected i = true →
      (servePass e r).1 i = (if i = 2 then e.getTempC i - 0.9375 else e.getTempC i)) := by
  have hmem : i ∈ idxs 0 e.numberOfOneWireDevices :=
    (mem_idxs e.numberOfOneWireDevices 0 i).2 ⟨Nat.zero_le i, by omega⟩
  have hval : (servePass e r).1 i = entryVal e r i :=
    serveList_val e (idxs 0 e.numberOfOneWireDevices) r i
      (idxs_nodup e.numberOfOneWireDevices 0) hmem
  constructor
  · intro hc
    refine ⟨?_, serveList_diag e (idxs 0 e.numberOfOneWireDevices) r i hmem hc⟩
    rw [hval]
    simp [entryVal, hc]
  · intro hc
    rw [hval]
    simp [entryVal, hc]

/-- Witness for C9: with sensor 1 unreachable among three devices, sensor 1
keeps its prior reading and raises a diagnostic while sensor 0 is updated. -/
theorem C9_refresh_independent_witness :
    ((servePass envC9 (fun _ => 100)).1 1 = (fun _ => (100 : ℚ)) 1
      ∧ Act.diag 1 ∈ (servePass envC9 (fun _ => 100)).2.2)
    ∧ (servePass envC9 (fun _ => 100)).1 0
        = (if (0 : Nat) = 2 then envC9.getTempC 0 - 0.9375 else envC9.getTempC 0) :=
  ⟨(C9_refresh_independent envC9 (fun _ => 100) 1 (by decide)).1 (by decide),
    (C9_refresh_independent envC9 (fun _ => 100) 0 (by decide)).2 (by decide)⟩

/-- C10: a successful reading of sensor 2 ("Intake Pipe: ") is stored as the
raw Celsius value minus 0.9375, while successful readings of sensors 0 and 1
are stored unchanged. -/
theorem C10_calibration (e : SensorsEnv) (r : Nat → ℚ)
    (hnum : 2 < e.numberOfOneWireDevices) (hc2 : e.isConnected 2 = true) :
    (servePass e r).1 2 = e.getTempC 2 - 0.9375
    ∧ (∀ i, i < 2 → e.isConnected i = true → (servePass e r).1 i = e.getTempC i) := by
  constructor
  · have hmem : (2 : Nat) ∈ idxs 0 e.numberOfOneWireDevices :=
      (mem_idxs e.numberOfOneWireDevices 0 2).2 ⟨by omega, by omega⟩
    have hval : (servePass e r).1 2 = entryVal e r 2 :=
      serveList_val e (idxs 0 e.numberOfOneWireDevices) r 2
        (idxs_nodup e.numberOfOneWireDevices 0) hmem
    rw [hval]
    simp [entryVal, hc2]
  · intro i hilt hci
    have hmem : i ∈ idxs 0 e.numberOfOneWireDevices :=
      (mem_idxs e.numberOfOneWireDevices 0 i).2 ⟨Nat.zero_le i, by omega⟩
    have hval : (servePass e r).1 i = entryVal e r i :=
      serveList_val e (idxs 0 e.numberOfOneWireDevices) r i
        (idxs_nodup e.numberOfOneWireDevices 0) hmem
    rw [hval]
    have hne : i ≠ 2 := by omega
    simp [entryVal, hci, hne]

/-- Witness for C10 with three reachable sensors reading their own index. -/
theorem C10_calibration_witness :
    (servePass envC10 (fun _ => 0)).1 2 = envC10.getTempC 2 - 0.9375
    ∧ (servePass envC10 (fun _ => 0)).1 0 = envC10.getTempC 0 :=
  ⟨(C10_calibration envC10 (fun _ => 0) (by decide) (by decide)).1,
    (C10_calibration envC10 (fun _ => 0) (by decide) (by decide)).2 0 (by decide) (by decide)⟩

end Pumphouse
